import Mathlib

/-!
Shallow embedding of the `monkey-compiler` virtual machine and REPL driver
(Go sources: `src/repl/repl.go`, containing package `repl` and package `vm`).

Go `object.Object` values are heap pointers (`*object.Integer`,
`*object.Boolean`, `*object.Null`).  The Go operators `==` / `!=` on the
`object.Object` interface compare the dynamic type and the pointer, i.e.
reference identity.  To embed this faithfully every object carries an
explicit allocation address (`addr`): two objects are reference-identical
exactly when they have the same constructor and the same address.  The VM
state carries an allocation counter `nextAddr`; each `&object.T{...}`
allocation in the Go source takes the current counter value as its address
and bumps the counter, which models the fact that a fresh Go allocation is
distinct from every live object.

Machine integers (`int64`) are embedded as `Int` with an explicit wrap into
`[-2^63, 2^63)` applied where the Go arithmetic can overflow.  Go runtime
panics (nil dereference, division by zero, index out of range) are kept
distinct from `error` values returned by `Run`.
-/

/-- Two's-complement wrap of an unbounded integer into a signed 64-bit
value, modelling Go `int64` overflow. -/
def wrap64 (x : Int) : Int :=
  (x + 2 ^ 63) % 2 ^ 64 - 2 ^ 63

/-- A Go `object.Object` pointer: the dynamic type, the pointed-to payload,
and the allocation address of the pointer (`IntObj` is `*object.Integer`,
`BoolObj` is `*object.Boolean`, `NullObj` is `*object.Null`). -/
inductive Obj where
  | IntObj (addr : Nat) (value : Int)
  | BoolObj (addr : Nat) (value : Bool)
  | NullObj (addr : Nat)
deriving DecidableEq

/-- The allocation address of an object. -/
def addrOf : Obj → Nat
  | .IntObj a _ => a
  | .BoolObj a _ => a
  | .NullObj a => a

/-- Go `==` on two non-nil `object.Object` interface values: dynamic types
and pointers must agree.  (Two live Go objects share an address only when
they are the same object, so comparing constructor and address is exactly
pointer equality.) -/
def refEq : Obj → Obj → Bool
  | .IntObj a _, .IntObj b _ => a == b
  | .BoolObj a _, .BoolObj b _ => a == b
  | .NullObj a, .NullObj b => a == b
  | _, _ => false

/-- Modelled from the spec: the `object` package's `Type()` tags (the
package is not under `src/`; spec section 4.2 fixes the tags `INTEGER`,
`BOOLEAN`, `NULL`). -/
def ObjType : Obj → String
  | .IntObj _ _ => "INTEGER"
  | .BoolObj _ _ => "BOOLEAN"
  | .NullObj _ => "NULL"

/-- Modelled from the spec: the `object` package's `Inspect()` printable
form (the package is not under `src/`; spec section 4.2: `"42"`, `"true"`,
`"null"`). -/
def Inspect : Obj → String
  | .IntObj _ v => toString v
  | .BoolObj _ b => if b then "true" else "false"
  | .NullObj _ => "null"

/-- The module-level singleton `True = &object.Boolean{Value: true}` of
package `vm`; its address is fixed at 0. -/
def TrueV : Obj := .BoolObj 0 true

/-- The module-level singleton `False = &object.Boolean{Value: false}` of
package `vm`; its address is fixed at 1. -/
def FalseV : Obj := .BoolObj 1 false

/-- The module-level singleton `Null = &object.Null{}` of package `vm`;
its address is fixed at 2. -/
def NullV : Obj := .NullObj 2

/-- Address discipline of the Go heap: distinct live objects have distinct
addresses, so an object carrying the address of one of the module-level
singletons is that singleton. -/
def WFAddr (o : Obj) : Prop :=
  (addrOf o = 0 → o = TrueV) ∧ (addrOf o = 1 → o = FalseV) ∧ (addrOf o = 2 → o = NullV)

instance (o : Obj) : Decidable (WFAddr o) := by
  unfold WFAddr
  infer_instance

/-- `const StackSize = 2048` of package `vm`. -/
def StackSize : Nat := 2048

/-- `const GlobalsSize = 65536` of package `vm`. -/
def GlobalsSize : Nat := 65536

/-- Modelled from the spec: the opcode bytes of the `code` package, which
is not under `src/`.  The spec (section 4.1) fixes the set of opcodes and
their operand layouts but not their numeric byte values; bytes are assigned
here in the spec table's order.  No claim depends on the particular
numbers, only on the opcodes being pairwise distinct bytes. -/
def OpConstant : Nat := 0

/-- Opcode byte for `OpPop` (see `OpConstant` for the numbering note). -/
def OpPop : Nat := 1

/-- Opcode byte for `OpAdd`. -/
def OpAdd : Nat := 2

/-- Opcode byte for `OpSub`. -/
def OpSub : Nat := 3

/-- Opcode byte for `OpMul`. -/
def OpMul : Nat := 4

/-- Opcode byte for `OpDiv`. -/
def OpDiv : Nat := 5

/-- Opcode byte for `OpTrue`. -/
def OpTrue : Nat := 6

/-- Opcode byte for `OpFalse`. -/
def OpFalse : Nat := 7

/-- Opcode byte for `OpNull`. -/
def OpNull : Nat := 8

/-- Opcode byte for `OpEqual`. -/
def OpEqual : Nat := 9

/-- Opcode byte for `OpNotEqual`. -/
def OpNotEqual : Nat := 10

/-- Opcode byte for `OpGreaterThan`. -/
def OpGreaterThan : Nat := 11

/-- Opcode byte for `OpMinus`. -/
def OpMinus : Nat := 12

/-- Opcode byte for `OpBang`. -/
def OpBang : Nat := 13

/-- Opcode byte for `OpJump`. -/
def OpJump : Nat := 14

/-- Opcode byte for `OpJumpNotTruthy`. -/
def OpJumpNotTruthy : Nat := 15

/-- Opcode byte for `OpSetGlobal`. -/
def OpSetGlobal : Nat := 16

/-- Opcode byte for `OpGetGlobal`. -/
def OpGetGlobal : Nat := 17

/-- Modelled from the spec: `code.ReadUint16`, the big-endian `u16` operand
decoder of the `code` package (not under `src/`; spec section 6: `u16`
operands are unsigned big-endian).  It reads the first two bytes of the
given slice of the instruction stream. -/
def ReadUint16 (bs : List Nat) : Nat :=
  256 * bs.getD 0 0 + bs.getD 1 0

/-- An abnormal outcome of a VM operation: either a Go `error` value
returned by `Run` (`errMsg`), or a Go runtime panic (`goPanic`) such as a
nil-interface dereference, an index out of range, or integer division by
zero.  A panic is not an `error` return; it crashes the process. -/
inductive RunErr where
  | errMsg (s : String)
  | goPanic (s : String)
deriving DecidableEq

/-- The `vm.VM` struct: constant pool, instruction bytes, globals array,
operand stack with stack pointer `sp` (top of stack is `stack[sp-1]`),
plus the allocation counter `nextAddr` modelling the Go heap (see the file
comment). -/
structure VM where
  constants : List Obj
  instructions : List Nat
  globals : List (Option Obj)
  stack : List (Option Obj)
  sp : Nat
  nextAddr : Nat
deriving DecidableEq

/-- `vm.New`: fresh stack of `StackSize` nil slots and fresh globals of
`GlobalsSize` nil slots, `sp = 0`.  `alloc` is the heap allocation counter
at construction time (at least 3, past the singleton addresses); it is a
modelling parameter, not a Go field. -/
def New (constants : List Obj) (instructions : List Nat) (alloc : Nat) : VM :=
  { constants := constants
    instructions := instructions
    globals := List.replicate GlobalsSize none
    stack := List.replicate StackSize none
    sp := 0
    nextAddr := alloc }

/-- A VM state with explicitly given stack, stack pointer, instructions,
constants and allocation counter, and empty globals; used to state
concrete instances of the theorems. -/
def mkVM (stack : List (Option Obj)) (sp : Nat) (instructions : List Nat)
    (constants : List Obj) (alloc : Nat) : VM :=
  { constants := constants
    instructions := instructions
    globals := []
    stack := stack
    sp := sp
    nextAddr := alloc }

/-- `vm.push`: fails with `stack overflow` when `sp >= StackSize`;
otherwise stores the (possibly nil) object at `stack[sp]` and increments
`sp`.  The first component is the returned Go error, the second the VM
state afterwards. -/
def push (vm : VM) (o : Option Obj) : Option RunErr × VM :=
  if vm.sp ≥ StackSize then
    (some (.errMsg "stack overflow"), vm)
  else
    (none, { vm with stack := vm.stack.set vm.sp o, sp := vm.sp + 1 })

/-- `vm.pop`: returns nil and leaves the VM unchanged when `sp == 0`;
otherwise returns `stack[sp-1]` and decrements `sp` (the slot itself is
not cleared). -/
def pop (vm : VM) : Option Obj × VM :=
  if vm.sp = 0 then
    (none, vm)
  else
    (vm.stack.getD (vm.sp - 1) none, { vm with sp := vm.sp - 1 })

/-- A Go allocation `&object.T{...}` followed by `vm.push`: the new object
takes the current allocation counter as its address and the counter is
bumped. -/
def pushFresh (vm : VM) (mk : Nat → Obj) : Option RunErr × VM :=
  push { vm with nextAddr := vm.nextAddr + 1 } (some (mk vm.nextAddr))

/-- `vm.StackTop`: nil when the stack is empty, otherwise `stack[sp-1]`. -/
def StackTop (vm : VM) : Option Obj :=
  if vm.sp = 0 then none else vm.stack.getD (vm.sp - 1) none

/-- `vm.LastPopped`: reads `stack[sp]`, the slot just above the top, which
retains the most recently popped value. -/
def LastPopped (vm : VM) : Option Obj :=
  vm.stack.getD vm.sp none

/-- `vm.isTruthy`: a `*object.Boolean` is truthy iff its bit is set, a
`*object.Null` is not truthy, anything else — every integer, and also a
nil interface, which matches no case of the Go type switch — is truthy. -/
def isTruthy : Option Obj → Bool
  | some (.BoolObj _ b) => b
  | some (.NullObj _) => false
  | some (.IntObj _ _) => true
  | none => true

/-- `vm.executeBangOperator`: pop the operand and switch on it with Go
`==` (reference identity) against the singletons: the canonical `True`
maps to `False`; the canonical `False` and `Null` map to `True`; every
other operand (integers, non-canonical booleans, nil) falls to the default
branch and maps to `False`. -/
def executeBangOperator (vm : VM) : Option RunErr × VM :=
  let p := pop vm
  match p.1 with
  | some operand =>
      if refEq operand TrueV then push p.2 (some FalseV)
      else if refEq operand FalseV || refEq operand NullV then push p.2 (some TrueV)
      else push p.2 (some FalseV)
  | none => push p.2 (some FalseV)

/-- `vm.executeMinusOperator`: pop the operand; a non-integer fails with
`unsupported type for negation by minus: T`; an integer is negated (with
`int64` wrap) into a freshly allocated `*object.Integer`. -/
def executeMinusOperator (vm : VM) : Option RunErr × VM :=
  let p := pop vm
  match p.1 with
  | none => (some (.goPanic "nil pointer dereference"), p.2)
  | some operand =>
      if ObjType operand ≠ "INTEGER" then
        (some (.errMsg ("unsupported type for negation by minus: " ++ ObjType operand)), p.2)
      else
        match operand with
        | .IntObj _ value => pushFresh p.2 (fun a => .IntObj a (wrap64 (-value)))
        | _ => (some (.goPanic "interface conversion"), p.2)

/-- `vm.executeBinaryIntegerOperation`: both operands are
`*object.Integer`; compute the `int64` result of the operator (`OpDiv` is
Go `/`, truncating signed division, panicking on a zero divisor) and push
it as a freshly allocated `*object.Integer`.  An opcode outside the four
arithmetic ones fails with `unknown integer operator: <opcode>`. -/
def executeBinaryIntegerOperation (vm : VM) (opcode : Nat) (left right : Obj) :
    Option RunErr × VM :=
  match left, right with
  | .IntObj _ leftValue, .IntObj _ rightValue =>
      if opcode = OpAdd then
        pushFresh vm (fun a => .IntObj a (wrap64 (leftValue + rightValue)))
      else if opcode = OpSub then
        pushFresh vm (fun a => .IntObj a (wrap64 (leftValue - rightValue)))
      else if opcode = OpMul then
        pushFresh vm (fun a => .IntObj a (wrap64 (leftValue * rightValue)))
      else if opcode = OpDiv then
        if rightValue = 0 then (some (.goPanic "integer divide by zero"), vm)
        else pushFresh vm (fun a => .IntObj a (wrap64 (Int.tdiv leftValue rightValue)))
      else
        (some (.errMsg ("unknown integer operator: " ++ toString opcode)), vm)
  | _, _ => (some (.goPanic "interface conversion"), vm)

/-- `vm.executeBinaryOperation`: pop right, then left; if both are
integers delegate to the integer operation, otherwise fail with
`unsupported types for binary operation: L and R` (left tag first).  A nil
operand panics at the `Type()` call. -/
def executeBinaryOperation (vm : VM) (opcode : Nat) : Option RunErr × VM :=
  let pr := pop vm
  let pl := pop pr.2
  match pr.1, pl.1 with
  | some right, some left =>
      if ObjType right = "INTEGER" ∧ ObjType left = "INTEGER" then
        executeBinaryIntegerOperation pl.2 opcode left right
      else
        (some (.errMsg ("unsupported types for binary operation: "
          ++ ObjType left ++ " and " ++ ObjType right)), pl.2)
  | _, _ => (some (.goPanic "nil pointer dereference"), pl.2)

/-- `vm.executeIntegerComparison`: compare the two integer payloads and
push the boolean result as a FRESHLY ALLOCATED `*object.Boolean` (the Go
source builds `&object.Boolean{Value: result}` rather than reusing the
canonical singletons). -/
def executeIntegerComparison (vm : VM) (opcode : Nat) (left right : Obj) :
    Option RunErr × VM :=
  match left, right with
  | .IntObj _ leftValue, .IntObj _ rightValue =>
      if opcode = OpEqual then
        pushFresh vm (fun a => .BoolObj a (decide (leftValue = rightValue)))
      else if opcode = OpNotEqual then
        pushFresh vm (fun a => .BoolObj a (decide (leftValue ≠ rightValue)))
      else if opcode = OpGreaterThan then
        pushFresh vm (fun a => .BoolObj a (decide (rightValue < leftValue)))
      else
        (some (.errMsg ("unknown integer operator: " ++ toString opcode)), vm)
  | _, _ => (some (.goPanic "interface conversion"), vm)

/-- `vm.executeComparison`: pop right, then left; two integers are
compared by value; otherwise `OpEqual` / `OpNotEqual` compare by Go `==`
reference identity and push the result as a freshly allocated
`*object.Boolean`, and any other opcode fails with the unsupported-types
message. -/
def executeComparison (vm : VM) (opcode : Nat) : Option RunErr × VM :=
  let pr := pop vm
  let pl := pop pr.2
  match pr.1, pl.1 with
  | some right, some left =>
      if ObjType right = "INTEGER" ∧ ObjType left = "INTEGER" then
        executeIntegerComparison pl.2 opcode left right
      else if opcode = OpEqual then
        pushFresh pl.2 (fun a => .BoolObj a (refEq left right))
      else if opcode = OpNotEqual then
        pushFresh pl.2 (fun a => .BoolObj a (!refEq left right))
      else
        (some (.errMsg ("unsupported types for binary operation: "
          ++ ObjType left ++ " and " ++ ObjType right)), pl.2)
  | _, _ => (some (.goPanic "nil pointer dereference"), pl.2)

/-- One iteration of the `vm.Run` dispatch loop at instruction pointer
`ip`: the switch on the opcode byte.  Returns the Go error (if any), the
VM state afterwards, and the instruction pointer for the next iteration
(the loop's trailing `ip++` is folded in, so a jump to `pos` sets `ip` to
`pos - 1` in Go and the next iteration starts at `pos` here).  An opcode
byte matching no case leaves the state untouched and moves to `ip + 1`. -/
def stepIp (vm : VM) (ip : Nat) : Option RunErr × VM × Nat :=
  let opcode := vm.instructions.getD ip 0
  if opcode = OpConstant then
    let index := ReadUint16 (vm.instructions.drop (ip + 1))
    match vm.constants[index]? with
    | none => (some (.goPanic "index out of range"), vm, ip + 3)
    | some c =>
        let r := push vm (some c)
        (r.1, r.2, ip + 3)
  else if opcode = OpTrue then
    let r := push vm (some TrueV)
    (r.1, r.2, ip + 1)
  else if opcode = OpFalse then
    let r := push vm (some FalseV)
    (r.1, r.2, ip + 1)
  else if opcode = OpNull then
    let r := push vm (some NullV)
    (r.1, r.2, ip + 1)
  else if opcode = OpBang then
    let r := executeBangOperator vm
    (r.1, r.2, ip + 1)
  else if opcode = OpMinus then
    let r := executeMinusOperator vm
    (r.1, r.2, ip + 1)
  else if opcode = OpAdd ∨ opcode = OpSub ∨ opcode = OpMul ∨ opcode = OpDiv then
    let r := executeBinaryOperation vm opcode
    (r.1, r.2, ip + 1)
  else if opcode = OpEqual ∨ opcode = OpNotEqual ∨ opcode = OpGreaterThan then
    let r := executeComparison vm opcode
    (r.1, r.2, ip + 1)
  else if opcode = OpPop then
    (none, (pop vm).2, ip + 1)
  else if opcode = OpJump then
    (none, vm, ReadUint16 (vm.instructions.drop (ip + 1)))
  else if opcode = OpJumpNotTruthy then
    let pos := ReadUint16 (vm.instructions.drop (ip + 1))
    let p := pop vm
    if isTruthy p.1 then (none, p.2, ip + 3) else (none, p.2, pos)
  else if opcode = OpSetGlobal then
    let index := ReadUint16 (vm.instructions.drop (ip + 1))
    let p := pop vm
    (none, { p.2 with globals := p.2.globals.set index p.1 }, ip + 3)
  else if opcode = OpGetGlobal then
    let index := ReadUint16 (vm.instructions.drop (ip + 1))
    let r := push vm (vm.globals.getD index none)
    (r.1, r.2, ip + 3)
  else
    (none, vm, ip + 1)

/-- The outcome of `vm.Run`: normal completion, a returned error or a
panic (together with the machine state at that moment), or fuel
exhaustion (a modelling artefact; the Go loop would keep running). -/
inductive Outcome where
  | ok (vm : VM)
  | err (e : RunErr) (vm : VM)
  | timeout (vm : VM)
deriving DecidableEq

/-- `vm.Run`: the fetch-decode-execute loop `for ip := 0; ip < len; ip++`,
starting from `ip`, with a fuel bound on the number of iterations. -/
def Run (fuel : Nat) (vm : VM) (ip : Nat) : Outcome :=
  match fuel with
  | 0 => .timeout vm
  | f + 1 =>
      if ip < vm.instructions.length then
        match stepIp vm ip with
        | (some e, vm2, _) => .err e vm2
        | (none, vm2, ip2) => Run f vm2 ip2
      else
        .ok vm

/-- The opcode bytes having a case in the `vm.Run` dispatch switch. -/
def definedOpcodes : List Nat :=
  [OpConstant, OpTrue, OpFalse, OpNull, OpBang, OpMinus,
   OpAdd, OpSub, OpMul, OpDiv, OpEqual, OpNotEqual, OpGreaterThan,
   OpPop, OpJump, OpJumpNotTruthy, OpSetGlobal, OpGetGlobal]

/-- Observation used by whole-program examples: run the machine from
`ip = 0` and, on normal completion, read `LastPopped()`. -/
def lastPoppedAfterRun (fuel : Nat) (vm : VM) : Option Obj :=
  match Run fuel vm 0 with
  | .ok vmEnd => LastPopped vmEnd
  | _ => none

/-- One iteration of the REPL loop body after a successful parse
(`repl.Start`, src/repl/repl.go lines 42-54), as the list of strings
written to `out`: a compile error is reported but does NOT skip the rest
of the iteration; the machine is built and run regardless; a run error is
reported and then `LastPopped().Inspect()` and a newline are written
unconditionally.  `none` models a Go panic (a VM panic, or `Inspect` on a
nil result) or fuel exhaustion. -/
def replLineOutputs (fuel : Nat) (compileErr : Option String) (machine : VM) :
    Option (List String) :=
  let compOut : List String :=
    match compileErr with
    | some e => ["error during compilation: " ++ e]
    | none => []
  match Run fuel machine 0 with
  | .ok vmEnd =>
      match LastPopped vmEnd with
      | some result => some (compOut ++ [Inspect result, "\n"])
      | none => none
  | .err (.errMsg e) vmEnd =>
      match LastPopped vmEnd with
      | some result =>
          some (compOut ++ ["error during execution: " ++ e, Inspect result, "\n"])
      | none => none
  | .err (.goPanic _) _ => none
  | .timeout _ => none

/-- Unfolding `pop` when the stack pointer is a successor. -/
theorem pop_of_sp_succ (vm : VM) (n : Nat) (hsp : vm.sp = n + 1) :
    pop vm = (vm.stack.getD n none, { vm with sp := n }) := by
  simp [pop, hsp]

/-- C7: after a pop from a non-empty stack, the popped value is exactly
`stack[sp-1]`, `LastPopped` of the resulting machine returns exactly that
value (the slot `stack[sp]` of the new machine retains its contents after
the decrement), the stack pointer has gone down by one, and no stack slot
was overwritten. -/
theorem C7_lastPopped_returns_popped (vm : VM) (h : 0 < vm.sp) :
    (pop vm).1 = vm.stack.getD (vm.sp - 1) none
  ∧ LastPopped (pop vm).2 = (pop vm).1
  ∧ (pop vm).2.sp = vm.sp - 1
  ∧ (pop vm).2.stack = vm.stack := by
  have hne : vm.sp ≠ 0 := Nat.pos_iff_ne_zero.mp h
  simp [pop, LastPopped, hne]

/-- C7 witness: a concrete pop from a two-element stack. -/
theorem C7_lastPopped_returns_popped_witness :
    0 < (mkVM [some TrueV, some NullV] 2 [] [] 3).sp
  ∧ ((pop (mkVM [some TrueV, some NullV] 2 [] [] 3)).1
        = (mkVM [some TrueV, some NullV] 2 [] [] 3).stack.getD
            ((mkVM [some TrueV, some NullV] 2 [] [] 3).sp - 1) none
    ∧ LastPopped (pop (mkVM [some TrueV, some NullV] 2 [] [] 3)).2
        = (pop (mkVM [some TrueV, some NullV] 2 [] [] 3)).1
    ∧ (pop (mkVM [some TrueV, some NullV] 2 [] [] 3)).2.sp
        = (mkVM [some TrueV, some NullV] 2 [] [] 3).sp - 1
    ∧ (pop (mkVM [some TrueV, some NullV] 2 [] [] 3)).2.stack
        = (mkVM [some TrueV, some NullV] 2 [] [] 3).stack) :=
  ⟨by decide, C7_lastPopped_returns_popped (mkVM [some TrueV, some NullV] 2 [] [] 3) (by decide)⟩

/-- C8: `push` fails with `stack overflow` exactly when `sp ≥ StackSize`
at the moment of the push; on success it stores the value at `stack[sp]`,
increments `sp`, and changes nothing else; and a `Run` step that pushes
(here: an `OpTrue` instruction) onto a full stack makes `Run` return the
`stack overflow` error. -/
theorem C8_push_stack_overflow (vm : VM) (o : Option Obj) :
    (StackSize ≤ vm.sp → push vm o = (some (RunErr.errMsg "stack overflow"), vm))
  ∧ (vm.sp < StackSize →
      push vm o = (none, { vm with stack := vm.stack.set vm.sp o, sp := vm.sp + 1 }))
  ∧ (∀ fuel ip, ip < vm.instructions.length → vm.instructions.getD ip 0 = OpTrue →
      StackSize ≤ vm.sp →
      Run (fuel + 1) vm ip = Outcome.err (RunErr.errMsg "stack overflow") vm) := by
  refine ⟨fun h => ?_, fun h => ?_, fun fuel ip hlt hop h => ?_⟩
  · simp [push, h]
  · simp [push, Nat.not_le.mpr h]
  · have hpush : push vm (some TrueV) = (some (RunErr.errMsg "stack overflow"), vm) := by
      simp [push, h]
    have hstep : stepIp vm ip = (some (RunErr.errMsg "stack overflow"), vm, ip + 1) := by
      simp only [stepIp, hop]
      simp [OpConstant, OpTrue, hpush]
    simp [Run, hlt, hstep]

/-- C8 witness: pushing onto a machine with `sp = 2048` overflows, and a
machine executing `OpTrue` with a full stack makes `Run` fail. -/
theorem C8_push_stack_overflow_witness :
    StackSize ≤ (mkVM [] 2048 [OpTrue] [] 3).sp
  ∧ push (mkVM [] 2048 [OpTrue] [] 3) none
      = (some (RunErr.errMsg "stack overflow"), mkVM [] 2048 [OpTrue] [] 3)
  ∧ Run 1 (mkVM [] 2048 [OpTrue] [] 3) 0
      = Outcome.err (RunErr.errMsg "stack overflow") (mkVM [] 2048 [OpTrue] [] 3) :=
  ⟨by decide,
   (C8_push_stack_overflow (mkVM [] 2048 [OpTrue] [] 3) none).1 (by decide),
   (C8_push_stack_overflow (mkVM [] 2048 [OpTrue] [] 3) none).2.2 0 0 (by decide) (by decide)
     (by decide)⟩

/-- C10: popping with `sp = 0` returns nil and leaves the machine
unchanged (in particular `sp` stays 0 and nothing is read out of bounds),
and an `OpPop` dispatched on an empty stack leaves the machine unchanged
and moves to the next instruction. -/
theorem C10_pop_empty_stack (vm : VM) (h : vm.sp = 0) :
    pop vm = (none, vm)
  ∧ ∀ ip, vm.instructions.getD ip 0 = OpPop → stepIp vm ip = (none, vm, ip + 1) := by
  constructor
  · simp [pop, h]
  · intro ip hop
    simp only [stepIp, hop]
    simp [OpConstant, OpTrue, OpFalse, OpNull, OpBang, OpMinus, OpAdd,
          OpSub, OpMul, OpDiv, OpEqual, OpNotEqual, OpGreaterThan, OpPop, pop, h]

/-- C10 witness: `OpPop` on a machine with an empty stack. -/
theorem C10_pop_empty_stack_witness :
    (mkVM [] 0 [OpPop] [] 3).sp = 0
  ∧ pop (mkVM [] 0 [OpPop] [] 3) = (none, mkVM [] 0 [OpPop] [] 3)
  ∧ stepIp (mkVM [] 0 [OpPop] [] 3) 0 = (none, mkVM [] 0 [OpPop] [] 3, 0 + 1) :=
  ⟨by decide,
   (C10_pop_empty_stack (mkVM [] 0 [OpPop] [] 3) (by decide)).1,
   (C10_pop_empty_stack (mkVM [] 0 [OpPop] [] 3) (by decide)).2 0 (by decide)⟩

/-- C9: a byte that is none of the defined opcodes is dispatched to no
case of the switch: `stepIp` returns no error and the machine state
unchanged (stack, `sp` and globals untouched), with the instruction
pointer advanced by one; the dispatch loop just continues from there. -/
theorem C9_unknown_opcode_ignored (vm : VM) (ip : Nat)
    (h : vm.instructions.getD ip 0 ∉ definedOpcodes) :
    stepIp vm ip = (none, vm, ip + 1)
  ∧ ∀ fuel, ip < vm.instructions.length → Run (fuel + 1) vm ip = Run fuel vm (ip + 1) := by
  have hs : ∀ k, k ∈ definedOpcodes → vm.instructions.getD ip 0 ≠ k :=
    fun k hk he => h (he ▸ hk)
  have h0 := hs OpConstant (by simp [definedOpcodes])
  have h1 := hs OpTrue (by simp [definedOpcodes])
  have h2 := hs OpFalse (by simp [definedOpcodes])
  have h3 := hs OpNull (by simp [definedOpcodes])
  have h4 := hs OpBang (by simp [definedOpcodes])
  have h5 := hs OpMinus (by simp [definedOpcodes])
  have h6 := hs OpAdd (by simp [definedOpcodes])
  have h7 := hs OpSub (by simp [definedOpcodes])
  have h8 := hs OpMul (by simp [definedOpcodes])
  have h9 := hs OpDiv (by simp [definedOpcodes])
  have h10 := hs OpEqual (by simp [definedOpcodes])
  have h11 := hs OpNotEqual (by simp [definedOpcodes])
  have h12 := hs OpGreaterThan (by simp [definedOpcodes])
  have h13 := hs OpPop (by simp [definedOpcodes])
  have h14 := hs OpJump (by simp [definedOpcodes])
  have h15 := hs OpJumpNotTruthy (by simp [definedOpcodes])
  have h16 := hs OpSetGlobal (by simp [definedOpcodes])
  have h17 := hs OpGetGlobal (by simp [definedOpcodes])
  have hstep : stepIp vm ip = (none, vm, ip + 1) := by
    simp only [stepIp]
    set b := vm.instructions.getD ip 0 with hb
    simp [h0, h1, h2, h3, h4, h5, h6, h7, h8, h9, h10, h11, h12, h13, h14,
          h15, h16, h17]
  refine ⟨hstep, fun fuel hlt => ?_⟩
  simp [Run, hlt, hstep]

/-- C9 witness: the byte 255 is not a defined opcode and is skipped. -/
theorem C9_unknown_opcode_ignored_witness :
    (mkVM [some TrueV] 1 [255] [] 3).instructions.getD 0 0 ∉ definedOpcodes
  ∧ stepIp (mkVM [some TrueV] 1 [255] [] 3) 0 = (none, mkVM [some TrueV] 1 [255] [] 3, 0 + 1) :=
  ⟨by decide, (C9_unknown_opcode_ignored (mkVM [some TrueV] 1 [255] [] 3) 0 (by decide)).1⟩

/-- C4: the four arithmetic opcodes pop the right then the left operand
(the value at `stack[sp-2]` becomes the left operand, the one at
`stack[sp-1]` the right); on two integers the exact wrapped signed 64-bit
result of the operation (truncating signed division for `OpDiv`, under a
nonzero divisor) is pushed as a fresh integer object; on any non-integer
operand the operation fails with the error naming the left then the right
type tag. -/
theorem C4_binary_operation (vm : VM) (n : Nat) (l r : Obj)
    (hsp : vm.sp = n + 2)
    (hcap : n < StackSize)
    (hl : vm.stack.getD n none = some l)
    (hr : vm.stack.getD (n + 1) none = some r) :
    (∀ al lv ar rv, l = Obj.IntObj al lv → r = Obj.IntObj ar rv →
        (executeBinaryOperation vm OpAdd =
          (none, { vm with
                   stack := vm.stack.set n (some (Obj.IntObj vm.nextAddr (wrap64 (lv + rv)))),
                   sp := n + 1, nextAddr := vm.nextAddr + 1 })
      ∧ executeBinaryOperation vm OpSub =
          (none, { vm with
                   stack := vm.stack.set n (some (Obj.IntObj vm.nextAddr (wrap64 (lv - rv)))),
                   sp := n + 1, nextAddr := vm.nextAddr + 1 })
      ∧ executeBinaryOperation vm OpMul =
          (none, { vm with
                   stack := vm.stack.set n (some (Obj.IntObj vm.nextAddr (wrap64 (lv * rv)))),
                   sp := n + 1, nextAddr := vm.nextAddr + 1 })
      ∧ (rv ≠ 0 → executeBinaryOperation vm OpDiv =
          (none, { vm with
                   stack := vm.stack.set n (some (Obj.IntObj vm.nextAddr (wrap64 (Int.tdiv lv rv)))),
                   sp := n + 1, nextAddr := vm.nextAddr + 1 }))))
  ∧ (¬ (ObjType l = "INTEGER" ∧ ObjType r = "INTEGER") →
      ∀ op, op = OpAdd ∨ op = OpSub ∨ op = OpMul ∨ op = OpDiv →
        executeBinaryOperation vm op =
          (some (RunErr.errMsg ("unsupported types for binary operation: "
            ++ ObjType l ++ " and " ++ ObjType r)), { vm with sp := n })) := by
  have hno : ¬ (StackSize ≤ n) := Nat.not_le.mpr hcap
  rw [List.getD_eq_getElem?_getD] at hl hr
  constructor
  · rintro al lv ar rv rfl rfl
    refine ⟨?_, ?_, ?_, fun hrv => ?_⟩
    · simp [executeBinaryOperation, pop, hsp, hl, hr, ObjType,
            executeBinaryIntegerOperation, pushFresh, push, OpAdd, hno]
    · simp [executeBinaryOperation, pop, hsp, hl, hr, ObjType,
            executeBinaryIntegerOperation, pushFresh, push, OpAdd, OpSub, hno]
    · simp [executeBinaryOperation, pop, hsp, hl, hr, ObjType,
            executeBinaryIntegerOperation, pushFresh, push, OpAdd, OpSub, OpMul, hno]
    · simp [executeBinaryOperation, pop, hsp, hl, hr, ObjType,
            executeBinaryIntegerOperation, pushFresh, push, OpAdd, OpSub, OpMul, OpDiv,
            hrv, hno]
  · intro hty op hop
    have hty2 : ¬ (ObjType r = "INTEGER" ∧ ObjType l = "INTEGER") :=
      fun hc => hty ⟨hc.2, hc.1⟩
    simp [executeBinaryOperation, pop, hsp, hl, hr, hty2]

/-- C4 witness: `7 + 3` on a concrete machine, and `true + 1` failing with
the unsupported-types error. -/
theorem C4_binary_operation_witness :
    executeBinaryOperation (mkVM [some (Obj.IntObj 10 7), some (Obj.IntObj 11 3)] 2 [] [] 3)
        OpAdd
      = (none, { mkVM [some (Obj.IntObj 10 7), some (Obj.IntObj 11 3)] 2 [] [] 3 with
                 stack := (mkVM [some (Obj.IntObj 10 7), some (Obj.IntObj 11 3)] 2 [] [] 3).stack.set 0
                   (some (Obj.IntObj (mkVM [some (Obj.IntObj 10 7), some (Obj.IntObj 11 3)] 2 [] [] 3).nextAddr
                     (wrap64 ((7 : Int) + 3)))),
                 sp := 0 + 1,
                 nextAddr := (mkVM [some (Obj.IntObj 10 7), some (Obj.IntObj 11 3)] 2 [] [] 3).nextAddr + 1 })
  ∧ executeBinaryOperation (mkVM [some TrueV, some (Obj.IntObj 11 1)] 2 [] [] 3) OpAdd
      = (some (RunErr.errMsg ("unsupported types for binary operation: "
          ++ ObjType TrueV ++ " and " ++ ObjType (Obj.IntObj 11 1))),
         { mkVM [some TrueV, some (Obj.IntObj 11 1)] 2 [] [] 3 with sp := 0 }) :=
  ⟨(((C4_binary_operation (mkVM [some (Obj.IntObj 10 7), some (Obj.IntObj 11 3)] 2 [] [] 3)
        0 (Obj.IntObj 10 7) (Obj.IntObj 11 3) rfl (by decide) rfl rfl).1)
        10 7 11 3 rfl rfl).1,
   (C4_binary_operation (mkVM [some TrueV, some (Obj.IntObj 11 1)] 2 [] [] 3)
        0 TrueV (Obj.IntObj 11 1) rfl (by decide) rfl rfl).2
     (by decide) OpAdd (Or.inl rfl)⟩

/-- C5: dispatching `OpJumpNotTruthy` pops exactly one value (the stack
itself is untouched and `sp` drops by one) and continues at the big-endian
`u16` target exactly when the popped value is not truthy, and at the byte
after the two operand bytes otherwise; a Boolean is truthy iff its carried
bit is set, Null is not truthy, and every integer (including 0) is
truthy. -/
theorem C5_jump_not_truthy (vm : VM) (ip : Nat)
    (hop : vm.instructions.getD ip 0 = OpJumpNotTruthy) :
    stepIp vm ip = (none, (pop vm).2,
      if isTruthy (pop vm).1 then ip + 3
      else ReadUint16 (vm.instructions.drop (ip + 1)))
  ∧ (∀ a b, (pop vm).1 = some (Obj.BoolObj a b) → isTruthy (pop vm).1 = b)
  ∧ (∀ a, (pop vm).1 = some (Obj.NullObj a) → isTruthy (pop vm).1 = false)
  ∧ (∀ a v, (pop vm).1 = some (Obj.IntObj a v) → isTruthy (pop vm).1 = true)
  ∧ (0 < vm.sp → (pop vm).2.sp = vm.sp - 1 ∧ (pop vm).2.stack = vm.stack) := by
  refine ⟨?_, ?_, ?_, ?_, ?_⟩
  · rcases ht : isTruthy (pop vm).1 with _ | _ <;>
    · simp only [stepIp, hop]
      simp [OpConstant, OpTrue, OpFalse, OpNull, OpBang, OpMinus, OpAdd, OpSub, OpMul,
            OpDiv, OpEqual, OpNotEqual, OpGreaterThan, OpPop, OpJump, OpJumpNotTruthy, ht]
  · rintro a b hb
    simp [isTruthy, hb]
  · rintro a hb
    simp [isTruthy, hb]
  · rintro a v hb
    simp [isTruthy, hb]
  · intro h
    have hne : vm.sp ≠ 0 := Nat.pos_iff_ne_zero.mp h
    simp [pop, hne]

/-- C5 witness: a concrete machine popping Null jumps to the target 9. -/
theorem C5_jump_not_truthy_witness :
    (mkVM [some NullV] 1 [OpJumpNotTruthy, 0, 9] [] 3).instructions.getD 0 0 = OpJumpNotTruthy
  ∧ stepIp (mkVM [some NullV] 1 [OpJumpNotTruthy, 0, 9] [] 3) 0
      = (none, (pop (mkVM [some NullV] 1 [OpJumpNotTruthy, 0, 9] [] 3)).2,
         if isTruthy (pop (mkVM [some NullV] 1 [OpJumpNotTruthy, 0, 9] [] 3)).1 then 0 + 3
         else ReadUint16 ((mkVM [some NullV] 1 [OpJumpNotTruthy, 0, 9] [] 3).instructions.drop (0 + 1))) :=
  ⟨by decide, (C5_jump_not_truthy (mkVM [some NullV] 1 [OpJumpNotTruthy, 0, 9] [] 3) 0 (by decide)).1⟩

/-- C6 counterexample: the operand `Obj.BoolObj 3 false` is a false
Boolean (as produced by an integer comparison, e.g. `1 == 2`), yet
`executeBangOperator` pushes the canonical False, not the canonical True
as the claim states: the Go switch compares by reference identity against
the singletons, and a non-canonical false Boolean falls to the default
branch. -/
theorem C6_bang_counterexample :
    executeBangOperator (mkVM [some (Obj.BoolObj 3 false)] 1 [] [] 4)
      = (none, mkVM [some FalseV] 1 [] [] 4)
  ∧ FalseV ≠ TrueV := by
  decide

/-- C6 (amended): `executeBangOperator` pops one value and pushes the
canonical False when the operand is the canonical True instance, the
canonical True when the operand is the canonical False or the canonical
Null instance, and the canonical False for every other value (all
integers, and any Boolean not reference-identical to a singleton).
`WFAddr` is the Go-heap address discipline: no object other than a
singleton carries a singleton's address. -/
theorem C6_bang_canonical_dispatch (vm : VM) (n : Nat) (o : Obj)
    (hsp : vm.sp = n + 1) (hcap : n < StackSize)
    (ho : vm.stack.getD n none = some o) (hwf : WFAddr o) :
    (o = TrueV →
      executeBangOperator vm
        = (none, { vm with stack := vm.stack.set n (some FalseV), sp := n + 1 }))
  ∧ (o = FalseV ∨ o = NullV →
      executeBangOperator vm
        = (none, { vm with stack := vm.stack.set n (some TrueV), sp := n + 1 }))
  ∧ (o ≠ TrueV → o ≠ FalseV → o ≠ NullV →
      executeBangOperator vm
        = (none, { vm with stack := vm.stack.set n (some FalseV), sp := n + 1 })) := by
  have hno : ¬ (StackSize ≤ n) := Nat.not_le.mpr hcap
  rw [List.getD_eq_getElem?_getD] at ho
  refine ⟨?_, ?_, ?_⟩
  · rintro rfl
    simp [executeBangOperator, pop, hsp, ho, refEq, TrueV, push, hno]
  · rintro (rfl | rfl)
    · simp [executeBangOperator, pop, hsp, ho, refEq, TrueV, FalseV, push, hno]
    · simp [executeBangOperator, pop, hsp, ho, refEq, TrueV, FalseV, NullV, push, hno]
  · intro h1 h2 h3
    have e1 : refEq o TrueV = false := by
      cases o with
      | IntObj a v => rfl
      | NullObj a => rfl
      | BoolObj a b =>
        rcases eq_or_ne a 0 with rfl | ha
        · exact absurd (hwf.1 rfl) h1
        · simp [refEq, TrueV, ha]
    have e2 : refEq o FalseV = false := by
      cases o with
      | IntObj a v => rfl
      | NullObj a => rfl
      | BoolObj a b =>
        rcases eq_or_ne a 1 with rfl | ha
        · exact absurd (hwf.2.1 rfl) h2
        · simp [refEq, FalseV, ha]
    have e3 : refEq o NullV = false := by
      cases o with
      | IntObj a v => rfl
      | BoolObj a b => rfl
      | NullObj a =>
        rcases eq_or_ne a 2 with rfl | ha
        · exact absurd (hwf.2.2 rfl) h3
        · simp [refEq, NullV, ha]
    simp [executeBangOperator, pop, hsp, ho, e1, e2, e3, push, hno]

/-- C6 witness for the amended claim: `OpBang` on the integer 0 pushes
the canonical False. -/
theorem C6_bang_canonical_dispatch_witness :
    executeBangOperator (mkVM [some (Obj.IntObj 5 0)] 1 [] [] 6)
      = (none, { mkVM [some (Obj.IntObj 5 0)] 1 [] [] 6 with
                 stack := (mkVM [some (Obj.IntObj 5 0)] 1 [] [] 6).stack.set 0 (some FalseV),
                 sp := 0 + 1 }) :=
  (C6_bang_canonical_dispatch (mkVM [some (Obj.IntObj 5 0)] 1 [] [] 6) 0 (Obj.IntObj 5 0)
      rfl (by decide) rfl (by decide)).2.2 (by decide) (by decide) (by decide)

/-- C1: executing `OpEqual` on two comparison results refutes the claim
that comparisons push the canonical singletons.  The program
`(true == true) == (true == true)` (bytecode `OpTrue; OpTrue; OpEqual;
OpTrue; OpTrue; OpEqual; OpEqual; OpPop`) ends with the Boolean object
`Obj.BoolObj 5 false` as its result: each inner comparison pushed a FRESH
true Boolean (addresses 3 and 4), neither of which is the canonical True
or False, so the outer reference-identity comparison of two true results
yields false where the claim requires true. -/
theorem C1_comparison_pushes_fresh_boolean :
    lastPoppedAfterRun 10
        (New [] [OpTrue, OpTrue, OpEqual, OpTrue, OpTrue, OpEqual, OpEqual, OpPop] 3)
      = some (Obj.BoolObj 5 false)
  ∧ Obj.BoolObj 5 false ≠ TrueV
  ∧ Obj.BoolObj 5 false ≠ FalseV
  ∧ refEq (Obj.BoolObj 3 true) (Obj.BoolObj 4 true) = false := by
  decide

/-- C2: `!!x` does not evaluate to the truthiness of `x` for every stack
value `x`.  With `x` the result of `1 == 2` — the fresh false Boolean
`Obj.BoolObj 3 false`, whose truthiness is `false` — the program
`!!(1 == 2)` ends with the canonical True: the first `OpBang` compares the
fresh Boolean by reference against the singletons, misses every case, and
takes the default branch to False; the second maps False to True. -/
theorem C2_double_bang_not_truthiness :
    lastPoppedAfterRun 10
        (New [Obj.IntObj 100 1, Obj.IntObj 101 2]
          [OpConstant, 0, 0, OpConstant, 0, 1, OpEqual, OpPop] 3)
      = some (Obj.BoolObj 3 false)
  ∧ isTruthy (some (Obj.BoolObj 3 false)) = false
  ∧ lastPoppedAfterRun 10
        (New [Obj.IntObj 100 1, Obj.IntObj 101 2]
          [OpConstant, 0, 0, OpConstant, 0, 1, OpEqual, OpBang, OpBang, OpPop] 3)
      = some TrueV
  ∧ isTruthy (some TrueV) = true := by
  decide

/-- C3: on a line whose execution returns an error the REPL does not write
only the error message: it still writes `LastPopped().Inspect()`.  For the
line `true + 1` (bytecode `OpTrue; OpConstant 0; OpAdd; OpPop`) `Run`
fails with the unsupported-types error, yet the output also contains
`"true"`, the `Inspect` of the left operand left in `stack[0]`; likewise a
line with a compile error still runs the machine and writes its result. -/
theorem C3_error_line_still_prints_result :
    replLineOutputs 10 none (New [Obj.IntObj 100 1] [OpTrue, OpConstant, 0, 0, OpAdd, OpPop] 3)
      = some ["error during execution: unsupported types for binary operation: BOOLEAN and INTEGER",
              "true", "\n"]
  ∧ replLineOutputs 10 (some "undefined variable: x") (New [] [OpTrue, OpPop] 3)
      = some ["error during compilation: undefined variable: x", "true", "\n"] := by
  decide
